import Mathlib

/-!
Verification development for the OCR-Ollama pipeline (src/main.py).

The embedding models, from the source:
  - `extract_json_from_response` : the two-tier regex search (fenced code
    block first, then greedy brace span) followed by `json.loads`;
  - `create_dataframe`           : the thirteen-column record builder;
  - `process_receipt`            : the orchestrated pipeline, with the
    filesystem and the two Ollama chat calls as explicit oracles;
  - the CSV serialization performed by `df.to_csv(output_csv, index=False)`.

Strings are handled as `List Char` internally, wrapped in `String` at the
interfaces.  All character classes are the ASCII portions of the Python
classes involved; every input considered by the claims is ASCII.
-/

/-- ASCII whitespace matched by the regex class \s (Python `re`).  Python
additionally matches non-ASCII Unicode whitespace, which does not occur in
any input considered here. -/
def isReSpace (c : Char) : Bool :=
  c == ' ' || c == '\t' || c == '\n' || c == '\r' || c == '\x0b' || c == '\x0c'

/-- Whitespace skipped by Python `json.loads` between tokens. -/
def isJsonWs (c : Char) : Bool :=
  c == ' ' || c == '\t' || c == '\n' || c == '\r'

/-- ASCII whitespace stripped by Python `str.strip()`. -/
def isPyStrip (c : Char) : Bool :=
  c == ' ' || c == '\t' || c == '\n' || c == '\r' || c == '\x0b' || c == '\x0c'

/-- The backtick character, written by code point. -/
def btick : Char := Char.ofNat 96

/-- Python values produced by `json.loads`, as handed to the pipeline.
Numbers are kept as their source lexeme: the claims never depend on the
numeric int/float conversion, only on parse success or failure. -/
inductive Json where
  | null
  | bool (b : Bool)
  | num (lexeme : String)
  | str (s : String)
  | arr (elems : List Json)
  | obj (entries : List (String × Json))

/-- The mapping carried by a parsed object, as the pipeline reads it
(`receipt_dict`); a non-object never reaches `create_dataframe` because
every candidate starts with a brace. -/
def Json.entries : Json → List (String × Json)
  | .obj es => es
  | _ => []

/-- Value of one hexadecimal digit. -/
def hexVal (c : Char) : Option Nat :=
  if '0' ≤ c ∧ c ≤ '9' then some (c.toNat - 48)
  else if 'a' ≤ c ∧ c ≤ 'f' then some (c.toNat - 87)
  else if 'A' ≤ c ∧ c ≤ 'F' then some (c.toNat - 55)
  else none

/-- Four hexadecimal digits, as in a \uXXXX escape. -/
def parseHex4 : List Char → Option (Nat × List Char)
  | a :: b :: c :: d :: rest =>
    match hexVal a, hexVal b, hexVal c, hexVal d with
    | some x, some y, some z, some w => some (((x * 16 + y) * 16 + z) * 16 + w, rest)
    | _, _, _, _ => none
  | _ => none

/-- The single-character JSON string escapes. -/
def escChar (e : Char) : Option Char :=
  if e = '"' then some '"'
  else if e = '\\' then some '\\'
  else if e = '/' then some '/'
  else if e = 'b' then some '\x08'
  else if e = 'f' then some '\x0c'
  else if e = 'n' then some '\n'
  else if e = 'r' then some '\r'
  else if e = 't' then some '\t'
  else none

/-- Body of a JSON string after the opening quote, following CPython's
strict json string scanner: escapes, \uXXXX with surrogate-pair combining,
rejection of raw control characters.  A lone surrogate (which CPython keeps
in the Python string) is not representable as a Lean `Char` and makes this
model fail instead; no input considered here contains one. -/
def parseStringBody (fuel : Nat) (l : List Char) : Option (List Char × List Char) :=
  match fuel with
  | 0 => none
  | fuel + 1 =>
    match l with
    | [] => none
    | '"' :: rest => some ([], rest)
    | '\\' :: rest =>
      match rest with
      | [] => none
      | e :: rest2 =>
        if e = 'u' then
          match parseHex4 rest2 with
          | none => none
          | some (n, rest3) =>
            if 0xD800 ≤ n ∧ n ≤ 0xDBFF then
              match rest3 with
              | '\\' :: 'u' :: rest4 =>
                match parseHex4 rest4 with
                | some (m, rest5) =>
                  if 0xDC00 ≤ m ∧ m ≤ 0xDFFF then
                    (parseStringBody fuel rest5).map
                      (fun p => (Char.ofNat (0x10000 + (n - 0xD800) * 0x400 + (m - 0xDC00)) :: p.1, p.2))
                  else none
                | none => none
              | _ => none
            else if 0xDC00 ≤ n ∧ n ≤ 0xDFFF then none
            else (parseStringBody fuel rest3).map (fun p => (Char.ofNat n :: p.1, p.2))
        else
          match escChar e with
          | some c => (parseStringBody fuel rest2).map (fun p => (c :: p.1, p.2))
          | none => none
    | c :: rest =>
      if c.toNat < 32 then none
      else (parseStringBody fuel rest).map (fun p => (c :: p.1, p.2))

/-- Integer part of CPython json's number regex: -?(0|[1-9][0-9]*). -/
def parseIntPart : List Char → Option (List Char × List Char)
  | '0' :: rest => some (['0'], rest)
  | c :: rest =>
    if c.isDigit then
      some (c :: rest.takeWhile Char.isDigit, rest.dropWhile Char.isDigit)
    else none
  | [] => none

/-- Optional fraction part: (\.[0-9]+)? . -/
def parseFracPart : List Char → List Char × List Char
  | '.' :: rest =>
    if rest.takeWhile Char.isDigit = ([] : List Char) then ([], '.' :: rest)
    else ('.' :: rest.takeWhile Char.isDigit, rest.dropWhile Char.isDigit)
  | l => ([], l)

/-- Optional exponent part: ([eE][+-]?[0-9]+)? . -/
def parseExpPart (l : List Char) : List Char × List Char :=
  match l with
  | e :: rest =>
    if e = 'e' ∨ e = 'E' then
      match rest with
      | s :: rest2 =>
        if s = '+' ∨ s = '-' then
          if rest2.takeWhile Char.isDigit = ([] : List Char) then ([], l)
          else (e :: s :: rest2.takeWhile Char.isDigit, rest2.dropWhile Char.isDigit)
        else if rest.takeWhile Char.isDigit = ([] : List Char) then ([], l)
        else (e :: rest.takeWhile Char.isDigit, rest.dropWhile Char.isDigit)
      | [] => ([], l)
    else ([], l)
  | [] => ([], l)

/-- A JSON number lexeme, per CPython json's NUMBER_RE. -/
def parseNumber : List Char → Option (List Char × List Char)
  | '-' :: rest =>
    match parseIntPart rest with
    | some (ip, r1) =>
      match parseFracPart r1 with
      | (fp, r2) =>
        match parseExpPart r2 with
        | (ep, r3) => some ('-' :: (ip ++ fp ++ ep), r3)
    | none => none
  | l =>
    match parseIntPart l with
    | some (ip, r1) =>
      match parseFracPart r1 with
      | (fp, r2) =>
        match parseExpPart r2 with
        | (ep, r3) => some (ip ++ fp ++ ep, r3)
    | none => none

/-- Skip JSON inter-token whitespace. -/
def skipWs (l : List Char) : List Char := l.dropWhile isJsonWs

/-- Python dict insertion: a duplicate key overwrites the stored value and
keeps its original position. -/
def insertKey : List (String × Json) → String → Json → List (String × Json)
  | [], k, v => [(k, v)]
  | (k0, v0) :: rest, k, v =>
    if k0 = k then (k0, v) :: rest else (k0, v0) :: insertKey rest k v

mutual

/-- One JSON value, positioned at its first character; the fuel only bounds
recursion depth and is never exhausted when it exceeds the input length. -/
def parseValue (fuel : Nat) (l : List Char) : Option (Json × List Char) :=
  match fuel with
  | 0 => none
  | fuel + 1 =>
    match l with
    | '"' :: rest =>
      (parseStringBody (rest.length + 1) rest).map
        (fun p => (Json.str (String.mk p.1), p.2))
    | '{' :: rest => parseMembers fuel (skipWs rest) true []
    | '[' :: rest => parseElems fuel (skipWs rest) true []
    | 'n' :: 'u' :: 'l' :: 'l' :: rest => some (Json.null, rest)
    | 't' :: 'r' :: 'u' :: 'e' :: rest => some (Json.bool true, rest)
    | 'f' :: 'a' :: 'l' :: 's' :: 'e' :: rest => some (Json.bool false, rest)
    | 'N' :: 'a' :: 'N' :: rest => some (Json.num "NaN", rest)
    | 'I' :: 'n' :: 'f' :: 'i' :: 'n' :: 'i' :: 't' :: 'y' :: rest =>
      some (Json.num "Infinity", rest)
    | '-' :: 'I' :: 'n' :: 'f' :: 'i' :: 'n' :: 'i' :: 't' :: 'y' :: rest =>
      some (Json.num "-Infinity", rest)
    | _ =>
      match parseNumber l with
      | some (lx, rest) => some (Json.num (String.mk lx), rest)
      | none => none

/-- Object members after the opening brace and whitespace; `first` is true
only before any member, where a closing brace yields the empty object.  A
comma must be followed by another member: a trailing comma fails. -/
def parseMembers (fuel : Nat) (l : List Char) (first : Bool)
    (acc : List (String × Json)) : Option (Json × List Char) :=
  match fuel with
  | 0 => none
  | fuel + 1 =>
    match first, l with
    | true, '}' :: rest => some (Json.obj acc, rest)
    | _, '"' :: rest =>
      match parseStringBody (rest.length + 1) rest with
      | none => none
      | some (key, r1) =>
        match skipWs r1 with
        | ':' :: r2 =>
          match parseValue fuel (skipWs r2) with
          | none => none
          | some (v, r3) =>
            match skipWs r3 with
            | '}' :: r4 => some (Json.obj (insertKey acc (String.mk key) v), r4)
            | ',' :: r4 => parseMembers fuel (skipWs r4) false (insertKey acc (String.mk key) v)
            | _ => none
        | _ => none
    | _, _ => none

/-- Array elements after the opening bracket and whitespace. -/
def parseElems (fuel : Nat) (l : List Char) (first : Bool)
    (acc : List Json) : Option (Json × List Char) :=
  match fuel with
  | 0 => none
  | fuel + 1 =>
    match first, l with
    | true, ']' :: rest => some (Json.arr acc, rest)
    | _, _ =>
      match parseValue fuel l with
      | none => none
      | some (v, r1) =>
        match skipWs r1 with
        | ']' :: r2 => some (Json.arr (acc ++ [v]), r2)
        | ',' :: r2 => parseElems fuel (skipWs r2) false (acc ++ [v])
        | _ => none

end

/-- Python `json.loads`: one document, with the whole input consumed
(trailing whitespace allowed). -/
def parseJson (s : String) : Option Json :=
  match parseValue (s.data.length + 1) (skipWs s.data) with
  | some (v, rest) => if skipWs rest = ([] : List Char) then some v else none
  | none => none

/-!
The JSON Recoverer (`extract_json_from_response`, src/main.py lines
127-159).  The first search is
  re.search(r'```(?:json)?\s*(\\\x7b.*?\\\x7d)\s*```', response_text, re.DOTALL)
whose leftmost-match, greedy-option and lazy-body semantics are modelled
exactly; the fallback is re.search(r'\\\x7b.*\\\x7d', ...) (first brace to
last brace).
-/

/-- After a candidate closing brace: \s* then three backticks (the greedy
\s* is deterministic here because a backtick is not whitespace). -/
def closesFence (l : List Char) : Bool :=
  match l.dropWhile isReSpace with
  | a :: b :: c :: _ => a == btick && b == btick && c == btick
  | _ => false

/-- The lazy group body `.*?` of the fenced pattern: the shortest run of
characters whose following brace closes the fence. -/
def lazyBody : List Char → Option (List Char)
  | [] => none
  | c :: rest =>
    if c = '}' ∧ closesFence rest then some []
    else (lazyBody rest).map (fun inner => c :: inner)

/-- Rest of the fenced pattern after the three backticks and the optional
json tag: \s*, the brace-delimited lazy group, \s*, three backticks.  The
returned value is the regex group: braces included. -/
def fencedAfterTag (t : List Char) : Option (List Char) :=
  match t.dropWhile isReSpace with
  | '{' :: body => (lazyBody body).map (fun inner => '{' :: (inner ++ ['}']))
  | _ => none

/-- One attempt of the fenced pattern anchored at the head of `l`: three
backticks, then the greedy optional tag `(?:json)?` (the tagged
alternative is tried first, as the regex engine does). -/
def fencedMatchAt (l : List Char) : Option (List Char) :=
  match l with
  | a :: b :: c :: rest =>
    if a = btick ∧ b = btick ∧ c = btick then
      match rest with
      | 'j' :: 's' :: 'o' :: 'n' :: rest2 =>
        match fencedAfterTag rest2 with
        | some g => some g
        | none => fencedAfterTag rest
      | _ => fencedAfterTag rest
    else none
  | _ => none

/-- `re.search` of the fenced pattern: the leftmost start position at which
some alternative matches. -/
def findFenced : List Char → Option (List Char)
  | [] => none
  | c :: rest =>
    match fencedMatchAt (c :: rest) with
    | some g => some g
    | none => findFenced rest

/-- The prefix of `l` that ends at the last closing brace, if any. -/
def upToLastRBrace : List Char → Option (List Char)
  | [] => none
  | c :: rest =>
    match upToLastRBrace rest with
    | some body => some (c :: body)
    | none => if c = '}' then some ['}'] else none

/-- `re.search` of the greedy fallback pattern: from the first opening
brace through the last closing brace of the whole string. -/
def greedySpan (l : List Char) : Option (List Char) :=
  match l.dropWhile (fun c => !(c == '{')) with
  | '{' :: rest => (upToLastRBrace rest).map (fun body => '{' :: body)
  | _ => none

/-- The candidate JSON text located by the two-tier search: the fenced
block's group if the fenced pattern matches anywhere, otherwise the greedy
brace span. -/
def extractCandidate (l : List Char) : Option (List Char) :=
  match findFenced l with
  | some g => some g
  | none => greedySpan l

/-- The §7 error taxonomy of the pipeline. -/
inductive OcrError where
  | fileNotFound (path : String)
  | extractionFailed
  | structuringFailed
  | noJsonFound
  | jsonParseError (excerpt : String)
deriving DecidableEq

/-- src/main.py `extract_json_from_response`: locate a candidate (fenced
block first, greedy span otherwise; neither raises ValueError — the
NoJsonFound condition), then `json.loads` it; a parse failure reports the
first 500 characters of the candidate (the `json_str[:500]` excerpt). -/
def extract_json_from_response (response_text : String) : Except OcrError Json :=
  match extractCandidate response_text.data with
  | none => .error .noJsonFound
  | some cand =>
    match parseJson (String.mk cand) with
    | some j => .ok j
    | none => .error (.jsonParseError (String.mk (cand.take 500)))

/-!
The Record Builder (`create_dataframe`, src/main.py lines 161-191).  The
one-row DataFrame is modelled as its ordered column/value list.  Python's
`dict.get(key)` returns None both for a missing key and for a stored null,
so the read is total with a null default.
-/

/-- Python `receipt_dict.get(k)`: the stored value, or null when absent. -/
def dictGet (d : List (String × Json)) (k : String) : Json :=
  match d.lookup k with
  | some v => v
  | none => Json.null

/-- src/main.py `create_dataframe`: the single row of the produced
DataFrame, as its ordered column/value pairs — a literal transcription of
the thirteen entries, with `CPF_Proprietario` read into column `CPF`. -/
def create_dataframe (receipt_dict : List (String × Json)) : List (String × Json) :=
  [("Matricula", dictGet receipt_dict "Matricula"),
   ("Proprietario", dictGet receipt_dict "Proprietario"),
   ("CPF", dictGet receipt_dict "CPF_Proprietario"),
   ("Endereco_Imovel", dictGet receipt_dict "Endereco_Imovel"),
   ("Municipio", dictGet receipt_dict "Municipio"),
   ("Estado", dictGet receipt_dict "Estado"),
   ("Area_Terreno", dictGet receipt_dict "Area_Terreno"),
   ("Registro_Anterior", dictGet receipt_dict "Registro_Anterior"),
   ("Data_Registro", dictGet receipt_dict "Data_Registro"),
   ("Cartorio", dictGet receipt_dict "Cartorio"),
   ("Livro", dictGet receipt_dict "Livro"),
   ("Folha", dictGet receipt_dict "Folha"),
   ("Observacoes", dictGet receipt_dict "Observacoes")]

/-- The fixed output schema, in column order (spec §3, with the rename). -/
def outputColumns : List String :=
  ["Matricula", "Proprietario", "CPF", "Endereco_Imovel", "Municipio",
   "Estado", "Area_Terreno", "Registro_Anterior", "Data_Registro",
   "Cartorio", "Livro", "Folha", "Observacoes"]

/-- The thirteen keys read from the parsed mapping, in the same order. -/
def knownSourceKeys : List String :=
  ["Matricula", "Proprietario", "CPF_Proprietario", "Endereco_Imovel", "Municipio",
   "Estado", "Area_Terreno", "Registro_Anterior", "Data_Registro",
   "Cartorio", "Livro", "Folha", "Observacoes"]

/-- Column under which a known source key is stored. -/
def colFor (k : String) : String :=
  if k = "CPF_Proprietario" then "CPF" else k

/-!
The pipeline (`process_receipt`, src/main.py lines 193-219) with its
external collaborators made explicit:
  - the filesystem is an oracle from paths to the bytes of existing files;
  - each of the two Ollama chat calls is an oracle from its request content
    to either a response text or a transport/service failure.
The run result records the outcome, how many client calls were issued, and
every file written.
-/

/-- One base64 digit (RFC 4648 alphabet). -/
def b64Digit (n : Nat) : Char :=
  if n < 26 then Char.ofNat (65 + n)
  else if n < 52 then Char.ofNat (97 + (n - 26))
  else if n < 62 then Char.ofNat (48 + (n - 52))
  else if n = 62 then '+' else '/'

/-- Standard base64 of a byte list, three bytes at a time with padding. -/
def b64Chunks : List Nat → List Char
  | [] => []
  | [a] =>
    let x := (a % 256) * 65536
    [b64Digit (x / 262144), b64Digit (x / 4096 % 64), '=', '=']
  | [a, b] =>
    let x := (a % 256) * 65536 + (b % 256) * 256
    [b64Digit (x / 262144), b64Digit (x / 4096 % 64), b64Digit (x / 64 % 64), '=']
  | a :: b :: c :: rest =>
    let x := (a % 256) * 65536 + (b % 256) * 256 + (c % 256)
    b64Digit (x / 262144) :: b64Digit (x / 4096 % 64) :: b64Digit (x / 64 % 64) ::
      b64Digit (x % 64) :: b64Chunks rest

/-- Python `base64.b64encode(...).decode('utf-8')`. -/
def base64encode (bytes : List Nat) : String := String.mk (b64Chunks bytes)

/-- Python `str.strip()` (ASCII whitespace; no input considered here has
non-ASCII whitespace at its ends). -/
def pyStrip (s : String) : String :=
  String.mk (((s.data.dropWhile isPyStrip).reverse.dropWhile isPyStrip).reverse)

/-- The fixed vision-model instruction of `extract_image_data`. -/
def visionInstruction : String :=
  "Extract all text from this Brazilian property registry document (certidão de imóvel). Read all visible text carefully, including registry numbers, names, addresses, CPF, dates, and property details."

/-- Head of the structuring prompt of `structure_to_json`, up to the
embedded extracted text. -/
def promptHead : String :=
  "Extract the following property registry details from the Brazilian certidão de imóvel text and return them as a structured JSON object.\n\nFields to extract:\n- Matricula (Registry/Matricula Number)\n- Proprietario (Owner name)\n- CPF_Proprietario (Owner CPF)\n- Endereco_Imovel (Property address - street, number, neighborhood)\n- Municipio (City)\n- Estado (State)\n- Area_Terreno (Land area in m²)\n- Registro_Anterior (Previous registry number if mentioned)\n- Data_Registro (Registration date)\n- Cartorio (Registry office name and location)\n- Livro (Book number)\n- Folha (Page number)\n- Observacoes (Any important notes or remarks)\n\nInput text:\n"

/-- Tail of the structuring prompt, after the embedded text. -/
def promptTail : String :=
  "\n\nReturn ONLY a valid JSON object, no extra text or explanations. Use null for missing fields.\n"

/-- The f-string prompt of `structure_to_json` with the extracted text
embedded verbatim. -/
def buildPrompt (text : String) : String := promptHead ++ text ++ promptTail

/-- src/main.py `extract_image_data`: read the image bytes, base64-encode
them, one vision-model chat call, return the trimmed response.  The second
component counts the client calls issued (a failing call was still
issued). -/
def extract_image_data (fs : String → Option (List Nat))
    (visionCall : String × String → Except Unit String)
    (image_path : String) : Except OcrError String × Nat :=
  match fs image_path with
  | none => (.error (.fileNotFound image_path), 0)
  | some bytes =>
    match visionCall (visionInstruction, base64encode bytes) with
    | .error _ => (.error .extractionFailed, 1)
    | .ok resp => (.ok (pyStrip resp), 1)

/-- src/main.py `structure_to_json`: one text-model chat call on the built
prompt, returning the trimmed response; with its client-call count. -/
def structure_to_json (textCall : String → Except Unit String)
    (text : String) : Except OcrError String × Nat :=
  match textCall (buildPrompt text) with
  | .error _ => (.error .structuringFailed, 1)
  | .ok resp => (.ok (pyStrip resp), 1)

/-- Does a cell value force quoting under csv QUOTE_MINIMAL: delimiter,
quote character, or line-terminator character. -/
def csvNeedsQuote (s : String) : Bool :=
  s.data.any (fun c => c == ',' || c == '"' || c == '\n' || c == '\r')

/-- Double every quote character (csv quote escaping). -/
def escQuotes : List Char → List Char
  | [] => []
  | c :: rest => if c = '"' then '"' :: '"' :: escQuotes rest else c :: escQuotes rest

/-- Minimal csv quoting of one textual cell. -/
def csvQuote (s : String) : String :=
  if csvNeedsQuote s then String.mk ('"' :: (escQuotes s.data ++ ['"'])) else s

mutual

/-- Compact textual rendering of a non-scalar cell value.  pandas renders a
container cell through Python str(); only the fact that some fixed text is
written matters here — no claim inspects the csv image of a non-string,
non-null cell. -/
def jsonText : Json → String
  | .null => "None"
  | .bool true => "True"
  | .bool false => "False"
  | .num lx => lx
  | .str s => s
  | .arr es => "[" ++ jsonTextList es ++ "]"
  | .obj ms => "\x7b" ++ jsonTextMembers ms ++ "\x7d"

/-- Comma-joined renderings of array elements. -/
def jsonTextList : List Json → String
  | [] => ""
  | [e] => jsonText e
  | e :: rest => jsonText e ++ ", " ++ jsonTextList rest

/-- Comma-joined renderings of object members. -/
def jsonTextMembers : List (String × Json) → String
  | [] => ""
  | [(k, v)] => k ++ ": " ++ jsonText v
  | (k, v) :: rest => k ++ ": " ++ jsonText v ++ ", " ++ jsonTextMembers rest

end

/-- Rendering of one data cell by pandas `to_csv`: null (None/NaN) becomes
the empty null marker, strings are minimally quoted; other values are
written as their textual rendering, quoted as needed. -/
def csvCell : Json → String
  | .null => ""
  | .str s => csvQuote s
  | v => csvQuote (jsonText v)

/-- Comma-join of already-rendered cells. -/
def joinCells : List (List Char) → List Char
  | [] => []
  | [c] => c
  | c :: cs => c ++ ',' :: joinCells cs

/-- Modelled library behavior: pandas `DataFrame.to_csv(index=False)` on
the one-row frame — one header line with the quoted-as-needed column
names, one data line, comma separation, a terminating newline on each
line. -/
def to_csv (row : List (String × Json)) : String :=
  String.mk (joinCells (row.map (fun c => (csvQuote c.1).data)) ++
    '\n' :: (joinCells (row.map (fun c => (csvCell c.2).data)) ++ ['\n']))

/-- Result of one pipeline run: the outcome (row and parsed mapping, or the
terminal error), the number of client calls issued, and the files
written. -/
structure RunResult where
  outcome : Except OcrError (List (String × Json) × List (String × Json))
  clientCalls : Nat
  writes : List (String × String)

/-- src/main.py `process_receipt`: validate that the path exists, then
extract, structure, recover and build in sequence, finally writing the csv
when an output path was requested.  Any stage error aborts the run. -/
def process_receipt (fs : String → Option (List Nat))
    (visionCall : String × String → Except Unit String)
    (textCall : String → Except Unit String)
    (image_path : String) (output_csv : Option String) : RunResult :=
  match fs image_path with
  | none => ⟨.error (.fileNotFound image_path), 0, []⟩
  | some _ =>
    match extract_image_data fs visionCall image_path with
    | (.error e, n1) => ⟨.error e, n1, []⟩
    | (.ok extracted_text, n1) =>
      match structure_to_json textCall extracted_text with
      | (.error e, n2) => ⟨.error e, n1 + n2, []⟩
      | (.ok json_response, n2) =>
        match extract_json_from_response json_response with
        | .error e => ⟨.error e, n1 + n2, []⟩
        | .ok j =>
          let receipt_dict := Json.entries j
          let df := create_dataframe receipt_dict
          match output_csv with
          | none => ⟨.ok (df, receipt_dict), n1 + n2, []⟩
          | some p => ⟨.ok (df, receipt_dict), n1 + n2, [(p, to_csv df)]⟩

/-!
Re-reading the delimited file (spec §8 round-trip property).  A plain
RFC-4180-style reader: quoted fields may contain delimiters, newlines and
doubled quotes; an empty data field is the null marker.
-/

/-- Inside a quoted field, after the opening quote: a doubled quote is a
literal quote, a lone quote closes the field. -/
def parseQuotedBody : List Char → Option (List Char × List Char)
  | [] => none
  | c :: rest =>
    if c = '"' then
      match rest with
      | '"' :: rest2 => (parseQuotedBody rest2).map (fun p => ('"' :: p.1, p.2))
      | _ => some ([], rest)
    else (parseQuotedBody rest).map (fun p => (c :: p.1, p.2))

/-- Characters ending an unquoted cell. -/
def isCellEnd (c : Char) : Bool := c == ',' || c == '\n' || c == '\r'

/-- One field: quoted if it starts with a quote, otherwise the run up to
the next delimiter or line end. -/
def parseCsvField (l : List Char) : Option (List Char × List Char) :=
  match l with
  | '"' :: rest => parseQuotedBody rest
  | _ => some (l.takeWhile (fun c => !isCellEnd c), l.dropWhile (fun c => !isCellEnd c))

/-- One record: comma-separated fields up to a line end (or end of input).
The fuel only bounds the number of fields. -/
def parseCsvRecord : Nat → List Char → Option (List (List Char) × List Char)
  | 0, _ => none
  | fuel + 1, l =>
    match parseCsvField l with
    | none => none
    | some (f, rest) =>
      match rest with
      | ',' :: rest2 => (parseCsvRecord fuel rest2).map (fun p => (f :: p.1, p.2))
      | '\r' :: '\n' :: rest2 => some ([f], rest2)
      | '\n' :: rest2 => some ([f], rest2)
      | [] => some ([f], [])
      | _ => none

/-- Read the whole delimited file back: a header record, exactly one data
record, nothing after; an empty data field reads as null. -/
def readCsv (s : String) : Option (List String × List (Option String)) :=
  match parseCsvRecord (s.data.length + 1) s.data with
  | none => none
  | some (hdr, rest) =>
    match parseCsvRecord (rest.length + 1) rest with
    | none => none
    | some (vals, rest2) =>
      if rest2 = ([] : List Char) then
        some (hdr.map String.mk,
          vals.map (fun f => if f = ([] : List Char) then none else some (String.mk f)))
      else none

/-- The thirteen field values an Output Row carries, modulo the file
format's null-marker convention: null and the empty string both map to the
empty marker. -/
def cellValue : Json → Option String
  | .str s => if s = "" then none else some s
  | _ => none

/-- The characters a null-or-string cell contributes to its csv field
(before quoting): nothing for null, the string's characters otherwise. -/
def cellChars : Json → List Char
  | .str s => s.data
  | _ => []

/-- A list starting (or ending the record) where a csv field may end. -/
def delimStart : List Char → Prop
  | [] => True
  | c :: _ => c = ',' ∨ c = '\n'

/-- Header fields paired as (content read back, characters written). -/
def headerPairs : List (List Char × List Char) :=
  outputColumns.map (fun n => (n.data, n.data))

/-- Data fields of a row paired as (content read back, characters
written). -/
def cellPairs (row : List (String × Json)) : List (List Char × List Char) :=
  row.map (fun c => (cellChars c.2, (csvCell c.2).data))

/-- Whether the string has an opening brace with a closing brace somewhere
after it — the condition for either search pattern to have any chance. -/
def hasBracePair : List Char → Bool
  | [] => false
  | c :: rest =>
    if c = '{' then (decide ('}' ∈ rest) || hasBracePair rest) else hasBracePair rest

/-- A concrete fenced block opener: three backticks, the json tag, a
newline, the opening brace. -/
def fenceOpenChars : List Char :=
  [btick, btick, btick, 'j', 's', 'o', 'n', '\n', '{']

/-- A concrete fenced block closer: closing brace, newline, three
backticks. -/
def fenceCloseChars : List Char :=
  ['}', '\n', btick, btick, btick]

/-! Concrete evaluations validating the embedding against the behavior
of the Python json, re, base64 and csv libraries on edge cases. -/

example : parseJson "\x7b\"a\": 1\x7d" =
    some (Json.obj [("a", Json.num "1")]) := rfl

example : parseJson "\x7b\"a\": 1,\x7d" = none := rfl

example : parseJson " \x7b \"a\" : [true, null, -1.5e2] \x7d " =
    some (Json.obj [("a", Json.arr [Json.bool true, Json.null, Json.num "-1.5e2"])]) := rfl

example : extract_json_from_response "Here: \x60\x60\x60json\n\x7b\"a\": null\x7d\n\x60\x60\x60 done" =
    .ok (Json.obj [("a", Json.null)]) := rfl

example : extract_json_from_response "answer \x7b\"a\": 2\x7d tail" =
    .ok (Json.obj [("a", Json.num "2")]) := rfl

example : extract_json_from_response "no braces at all" = .error .noJsonFound := rfl

example : extract_json_from_response "\x7b\"a\": 2,\x7d" =
    .error (.jsonParseError "\x7b\"a\": 2,\x7d") := rfl

example : (create_dataframe [("CPF_Proprietario", Json.str "x")]).lookup "CPF" =
    some (Json.str "x") := rfl

example : base64encode [77, 97, 110] = "TWFu" := rfl

example : base64encode [77, 97] = "TWE=" := rfl

example : pyStrip "  a b\n" = "a b" := rfl

set_option maxRecDepth 4000 in
example : readCsv (to_csv (create_dataframe
      [("Matricula", Json.str "12,3\"45"), ("Folha", Json.str "a\nb")])) =
    some (outputColumns,
      [some "12,3\"45", none, none, none, none, none, none, none, none, none,
       none, some "a\nb", none]) := rfl

/-! Helper lemmas about the two-tier search. -/

theorem hasBracePair_cons_false (c : Char) (rest : List Char)
    (h : hasBracePair (c :: rest) = false) : hasBracePair rest = false := by
  unfold hasBracePair at h
  by_cases hc : c = '{'
  · rw [if_pos hc, Bool.or_eq_false_iff] at h
    exact h.2
  · rwa [if_neg hc] at h

theorem hasBracePair_cons_true (c : Char) (rest : List Char)
    (h : hasBracePair rest = true) : hasBracePair (c :: rest) = true := by
  unfold hasBracePair
  by_cases hc : c = '{'
  · rw [if_pos hc, h, Bool.or_true]
  · rwa [if_neg hc]

theorem hasBracePair_of_append (pre body : List Char) (h : '}' ∈ body) :
    hasBracePair (pre ++ '{' :: body) = true := by
  induction pre with
  | nil => simp [hasBracePair, h]
  | cons c pre ih => exact hasBracePair_cons_true c _ ih

theorem lazyBody_mem_rbrace (l : List Char) :
    ∀ inner, lazyBody l = some inner → '}' ∈ l := by
  induction l with
  | nil => intro inner h; exact absurd h (by simp [lazyBody])
  | cons c rest ih =>
    intro inner h
    unfold lazyBody at h
    split at h
    · rename_i hcond
      exact hcond.1 ▸ List.mem_cons_self c rest
    · rcases hlz : lazyBody rest with _ | inner2
      · rw [hlz] at h
        exact absurd h (by simp)
      · exact List.mem_cons_of_mem c (ih inner2 hlz)

theorem fencedAfterTag_pair (r g : List Char) (h : fencedAfterTag r = some g) :
    hasBracePair r = true := by
  unfold fencedAfterTag at h
  split at h
  · rename_i body heq
    rcases hlz : lazyBody body with _ | inner
    · rw [hlz] at h
      exact absurd h (by simp)
    · have hcont : '}' ∈ body := lazyBody_mem_rbrace body inner hlz
      have hr : r = r.takeWhile isReSpace ++ '{' :: body := by
        conv_lhs => rw [← List.takeWhile_append_dropWhile (p := isReSpace) (l := r)]
        rw [heq]
      rw [hr]
      exact hasBracePair_of_append _ _ hcont
  · exact absurd h (by simp)

theorem fencedMatchAt_pair (l g : List Char) (h : fencedMatchAt l = some g) :
    hasBracePair l = true := by
  unfold fencedMatchAt at h
  split at h
  · rename_i a b c rest
    split at h
    · split at h
      · rename_i rest2
        rcases hf2 : fencedAfterTag rest2 with _ | g2
        · rw [hf2] at h
          have hp := fencedAfterTag_pair _ _ h
          exact hasBracePair_cons_true _ _ (hasBracePair_cons_true _ _
            (hasBracePair_cons_true _ _ hp))
        · rw [hf2] at h
          have hp := fencedAfterTag_pair _ _ hf2
          exact hasBracePair_cons_true _ _ (hasBracePair_cons_true _ _
            (hasBracePair_cons_true _ _ (hasBracePair_cons_true _ _
              (hasBracePair_cons_true _ _ (hasBracePair_cons_true _ _
                (hasBracePair_cons_true _ _ hp))))))
      · have hp := fencedAfterTag_pair _ _ h
        exact hasBracePair_cons_true _ _ (hasBracePair_cons_true _ _
          (hasBracePair_cons_true _ _ hp))
    · exact absurd h (by simp)
  · exact absurd h (by simp)

theorem upToLastRBrace_eq_none (l : List Char) (h : '}' ∉ l) :
    upToLastRBrace l = none := by
  induction l with
  | nil => rfl
  | cons c rest ih =>
    rw [List.mem_cons] at h
    push_neg at h
    obtain ⟨h1, h2⟩ := h
    unfold upToLastRBrace
    rw [ih h2]
    exact if_neg (fun hc => h1 hc.symm)

theorem greedySpan_eq_none (l : List Char) (h : hasBracePair l = false) :
    greedySpan l = none := by
  induction l with
  | nil => rfl
  | cons c rest ih =>
    by_cases hc : c = '{'
    · subst hc
      unfold hasBracePair at h
      rw [if_pos rfl, Bool.or_eq_false_iff, decide_eq_false_iff_not] at h
      show Option.map (fun body => '{' :: body) (upToLastRBrace rest) = none
      rw [upToLastRBrace_eq_none rest h.1]
      rfl
    · have h' : hasBracePair rest = false := hasBracePair_cons_false c rest h
      have hstep : greedySpan (c :: rest) = greedySpan rest := by
        unfold greedySpan
        rw [List.dropWhile_cons, if_pos (by simp [hc])]
      rw [hstep]
      exact ih h'

theorem findFenced_eq_none (l : List Char) (h : hasBracePair l = false) :
    findFenced l = none := by
  induction l with
  | nil => rfl
  | cons c rest ih =>
    have h' := hasBracePair_cons_false c rest h
    unfold findFenced
    rcases hm : fencedMatchAt (c :: rest) with _ | g
    · exact ih h'
    · have hp := fencedMatchAt_pair _ _ hm
      rw [hp] at h
      exact absurd h (by simp)

theorem fencedMatchAt_cons_ne (a : Char) (l : List Char) (h : a ≠ btick) :
    fencedMatchAt (a :: l) = none := by
  rcases l with _ | ⟨b, _ | ⟨c, rest⟩⟩
  · rfl
  · rfl
  · unfold fencedMatchAt
    exact if_neg (fun hcond => h hcond.1)

theorem findFenced_append (pre l : List Char) (h : ∀ c ∈ pre, c ≠ btick) :
    findFenced (pre ++ l) = findFenced l := by
  induction pre with
  | nil => rfl
  | cons c pre ih =>
    rw [List.cons_append]
    show (match fencedMatchAt (c :: (pre ++ l)) with
      | some g => some g
      | none => findFenced (pre ++ l)) = findFenced l
    rw [fencedMatchAt_cons_ne c (pre ++ l) (h c (List.mem_cons_self c pre))]
    exact ih (fun x hx => h x (List.mem_cons_of_mem c hx))

theorem lazyBody_append (inner rest : List Char) (hin : '}' ∉ inner)
    (hcl : closesFence rest = true) :
    lazyBody (inner ++ '}' :: rest) = some inner := by
  induction inner with
  | nil =>
    rw [List.nil_append]
    unfold lazyBody
    exact if_pos ⟨rfl, hcl⟩
  | cons c inner ih =>
    rw [List.mem_cons] at hin
    push_neg at hin
    obtain ⟨h1, h2⟩ := hin
    rw [List.cons_append]
    unfold lazyBody
    rw [if_neg (fun hcond => h1 hcond.1.symm), ih h2]
    rfl

theorem fencedAfterTag_concrete (inner post : List Char) (hin : '}' ∉ inner) :
    fencedAfterTag ('\n' :: '{' :: (inner ++ ('}' :: '\n' :: btick :: btick :: btick :: post)))
      = some ('{' :: (inner ++ ['}'])) := by
  show Option.map (fun inner => '{' :: (inner ++ ['}']))
      (lazyBody (inner ++ ('}' :: '\n' :: btick :: btick :: btick :: post)))
    = some ('{' :: (inner ++ ['}']))
  rw [lazyBody_append inner ('\n' :: btick :: btick :: btick :: post) hin (by rfl)]
  rfl

theorem fencedMatchAt_concrete (inner post : List Char) (hin : '}' ∉ inner) :
    fencedMatchAt (fenceOpenChars ++ (inner ++ (fenceCloseChars ++ post)))
      = some ('{' :: (inner ++ ['}'])) := by
  have h1 := fencedAfterTag_concrete inner post hin
  show (match fencedAfterTag ('\n' :: '{' ::
        (inner ++ ('}' :: '\n' :: btick :: btick :: btick :: post))) with
      | some g => some g
      | none => fencedAfterTag ('j' :: 's' :: 'o' :: 'n' :: '\n' :: '{' ::
          (inner ++ ('}' :: '\n' :: btick :: btick :: btick :: post)))) =
    some ('{' :: (inner ++ ['}']))
  rw [h1]

/-- Claim C3: the two-tier search runs in a fixed order — when the fenced
pattern matches its group is the candidate, only otherwise is the greedy
whole-string brace span used; and for a response built of backtick-free
prose around a json-tagged fenced object whose body has no closing brace,
the candidate is exactly the fenced object, not anything from the
surrounding prose. -/
theorem c3_fenced_tier_first :
    (∀ l g : List Char, findFenced l = some g → extractCandidate l = some g) ∧
    (∀ l : List Char, findFenced l = none → extractCandidate l = greedySpan l) ∧
    (∀ pre inner post : List Char, (∀ c ∈ pre, c ≠ btick) → '}' ∉ inner →
      extractCandidate (pre ++ fenceOpenChars ++ inner ++ fenceCloseChars ++ post) =
        some ('{' :: (inner ++ ['}']))) := by
  refine ⟨?_, ?_, ?_⟩
  · intro l g h
    unfold extractCandidate
    rw [h]
  · intro l h
    unfold extractCandidate
    rw [h]
  · intro pre inner post hpre hin
    have hassoc : pre ++ fenceOpenChars ++ inner ++ fenceCloseChars ++ post
        = pre ++ (fenceOpenChars ++ (inner ++ (fenceCloseChars ++ post))) := by
      simp [List.append_assoc]
    have hf : findFenced (pre ++ fenceOpenChars ++ inner ++ fenceCloseChars ++ post)
        = some ('{' :: (inner ++ ['}'])) := by
      rw [hassoc, findFenced_append pre _ hpre]
      show (match fencedMatchAt (fenceOpenChars ++ (inner ++ (fenceCloseChars ++ post))) with
        | some g => some g
        | none => findFenced ((btick : Char) :: btick :: 'j' :: 's' :: 'o' :: 'n' :: '\n' :: '{' ::
            (inner ++ (fenceCloseChars ++ post)))) = some ('{' :: (inner ++ ['}']))
      rw [fencedMatchAt_concrete inner post hin]
    unfold extractCandidate
    rw [hf]

/-- Concrete run of C3: prose before and after the fenced block, a brace
pair in the trailing prose; the candidate is the fenced object. -/
theorem c3_witness :
    extractCandidate (("Result: " : String).data ++ fenceOpenChars ++
        ("\"Matricula\": \"123\"" : String).data ++ fenceCloseChars ++
        (" done \x7bx\x7d" : String).data) =
      some ('{' :: (("\"Matricula\": \"123\"" : String).data ++ ['}'])) :=
  c3_fenced_tier_first.2.2 _ _ _ (by decide) (by decide)

/-- Claim C5: when the string has no opening brace followed by a closing
brace, neither tier of the search matches and the Recoverer fails with
NoJsonFound, returning no mapping. -/
theorem c5_no_pair_noJsonFound (s : String) (hno : hasBracePair s.data = false) :
    findFenced s.data = none ∧ greedySpan s.data = none ∧
    extract_json_from_response s = .error .noJsonFound := by
  have hf := findFenced_eq_none s.data hno
  have hg := greedySpan_eq_none s.data hno
  have hcand : extractCandidate s.data = none := by
    unfold extractCandidate
    rw [hf, hg]
  refine ⟨hf, hg, ?_⟩
  unfold extract_json_from_response
  rw [hcand]

/-- Concrete run of C5: a closing brace before an opening brace is not a
pair; the Recoverer reports NoJsonFound. -/
theorem c5_witness :
    hasBracePair ("sem json aqui \x7d\x7b" : String).data = false ∧
    extract_json_from_response "sem json aqui \x7d\x7b" = .error .noJsonFound :=
  ⟨rfl, (c5_no_pair_noJsonFound "sem json aqui \x7d\x7b" rfl).2.2⟩

/-! Helper lemmas about the record builder. -/

theorem dictGet_eq_of_lookup_none (d : List (String × Json)) (k : String)
    (h : d.lookup k = none) : dictGet d k = Json.null := by
  unfold dictGet
  rw [h]

theorem dictGet_eq_of_lookup_some (d : List (String × Json)) (k : String) (v : Json)
    (h : d.lookup k = some v) : dictGet d k = v := by
  unfold dictGet
  rw [h]

/-- Each known source key is read into its column of the row. -/
theorem lookup_create_dataframe (d : List (String × Json)) (k : String)
    (hk : k ∈ knownSourceKeys) :
    (create_dataframe d).lookup (colFor k) = some (dictGet d k) := by
  simp only [knownSourceKeys, List.mem_cons, List.not_mem_nil, or_false] at hk
  rcases hk with rfl|rfl|rfl|rfl|rfl|rfl|rfl|rfl|rfl|rfl|rfl|rfl|rfl <;> rfl

/-- Claim C1: for every parsed mapping, the produced Output Row has exactly
the thirteen columns Matricula, Proprietario, CPF, Endereco_Imovel,
Municipio, Estado, Area_Terreno, Registro_Anterior, Data_Registro,
Cartorio, Livro, Folha, Observacoes, in exactly that order, with the input
key CPF_Proprietario renamed to the column CPF, regardless of which subset
of fields is present in the mapping. -/
theorem c1_row_schema (d : List (String × Json)) :
    (create_dataframe d).map Prod.fst = outputColumns ∧
    (create_dataframe d).length = 13 ∧
    (create_dataframe d).lookup "CPF" = some (dictGet d "CPF_Proprietario") ∧
    (create_dataframe d).lookup "CPF_Proprietario" = none :=
  ⟨rfl, rfl, rfl, rfl⟩

/-- Claim C2: the Record Builder is total: a known key missing from the
mapping yields null in its column, and keys outside the thirteen known
ones are ignored — two mappings agreeing on the known keys yield the same
row (so extra keys neither appear nor affect any column); being a total
Lean function, it raises no error. -/
theorem c2_total_defaults (d : List (String × Json)) :
    (∀ k, k ∈ knownSourceKeys → d.lookup k = none →
      (create_dataframe d).lookup (colFor k) = some Json.null) ∧
    (∀ d' : List (String × Json), (∀ k ∈ knownSourceKeys, dictGet d k = dictGet d' k) →
      create_dataframe d = create_dataframe d') := by
  constructor
  · intro k hk hnone
    rw [lookup_create_dataframe d k hk, dictGet_eq_of_lookup_none d k hnone]
  · intro d' h
    unfold create_dataframe
    rw [h "Matricula" (by decide), h "Proprietario" (by decide),
      h "CPF_Proprietario" (by decide), h "Endereco_Imovel" (by decide),
      h "Municipio" (by decide), h "Estado" (by decide),
      h "Area_Terreno" (by decide), h "Registro_Anterior" (by decide),
      h "Data_Registro" (by decide), h "Cartorio" (by decide),
      h "Livro" (by decide), h "Folha" (by decide), h "Observacoes" (by decide)]

/-- Concrete run of C2: a mapping with an unknown extra key and most known
keys missing: the Livro column is null, and the row equals the one built
without the extra key. -/
theorem c2_witness :
    (create_dataframe [("Matricula", Json.str "12345"), ("Bogus", Json.str "zz")]).lookup
        (colFor "Livro") = some Json.null ∧
    create_dataframe [("Matricula", Json.str "12345"), ("Bogus", Json.str "zz")] =
      create_dataframe [("Matricula", Json.str "12345")] :=
  ⟨(c2_total_defaults [("Matricula", Json.str "12345"), ("Bogus", Json.str "zz")]).1
      "Livro" (by decide) rfl,
   (c2_total_defaults [("Matricula", Json.str "12345"), ("Bogus", Json.str "zz")]).2
      [("Matricula", Json.str "12345")]
      (by
        intro k hk
        simp only [knownSourceKeys, List.mem_cons, List.not_mem_nil, or_false] at hk
        rcases hk with rfl|rfl|rfl|rfl|rfl|rfl|rfl|rfl|rfl|rfl|rfl|rfl|rfl <;> rfl)⟩

/-- Claim C9: a known key present in the mapping is copied into the row
verbatim, with no type validation or conversion — also when the value is
not a string and not null. -/
theorem c9_verbatim_copy (d : List (String × Json)) (k : String) (v : Json)
    (hk : k ∈ knownSourceKeys) (hv : d.lookup k = some v) :
    (create_dataframe d).lookup (colFor k) = some v := by
  rw [lookup_create_dataframe d k hk, dictGet_eq_of_lookup_some d k v hv]

/-- Concrete run of C9: a list value under Area_Terreno appears unchanged
in the row. -/
theorem c9_witness :
    (create_dataframe [("Area_Terreno", Json.arr [Json.num "250", Json.str "m2"])]).lookup
        (colFor "Area_Terreno") = some (Json.arr [Json.num "250", Json.str "m2"]) :=
  c9_verbatim_copy _ _ _ (by decide) rfl

/-- Claim C10: the JSON Recoverer and the Record Builder are deterministic
pure functions of their input: equal inputs give identical outcomes. -/
theorem c10_deterministic :
    (∀ s₁ s₂ : String, s₁ = s₂ →
      extract_json_from_response s₁ = extract_json_from_response s₂) ∧
    (∀ d₁ d₂ : List (String × Json), d₁ = d₂ →
      create_dataframe d₁ = create_dataframe d₂) :=
  ⟨fun _ _ h => congrArg extract_json_from_response h,
   fun _ _ h => congrArg create_dataframe h⟩

/-- Concrete run of C10 at equal concrete inputs. -/
theorem c10_witness :
    extract_json_from_response "\x7b\x7d" = extract_json_from_response "\x7b\x7d" ∧
    create_dataframe [("Folha", Json.null)] = create_dataframe [("Folha", Json.null)] :=
  ⟨c10_deterministic.1 "\x7b\x7d" "\x7b\x7d" rfl,
   c10_deterministic.2 [("Folha", Json.null)] [("Folha", Json.null)] rfl⟩

/-- Claim C6: when a candidate span is located but is not valid JSON, the
Recoverer fails with JsonParseError, reporting the first 500 characters of
the offending candidate (the code prints `json_str[:500]` as part of the
failure; the excerpt is carried as the error payload here). -/
theorem c6_parse_error_excerpt (s : String) (cand : List Char)
    (h1 : extractCandidate s.data = some cand)
    (h2 : parseJson (String.mk cand) = none) :
    extract_json_from_response s =
      .error (.jsonParseError (String.mk (cand.take 500))) := by
  unfold extract_json_from_response
  rw [h1]
  simp only [h2]

/-- Concrete run of C6: a trailing comma makes the located candidate
invalid; the whole candidate (shorter than 500 characters) is reported. -/
theorem c6_witness :
    extractCandidate ("\x7b\"a\": 2,\x7d" : String).data =
      some ("\x7b\"a\": 2,\x7d" : String).data ∧
    parseJson (String.mk ("\x7b\"a\": 2,\x7d" : String).data) = none ∧
    extract_json_from_response "\x7b\"a\": 2,\x7d" =
      .error (.jsonParseError (String.mk (("\x7b\"a\": 2,\x7d" : String).data.take 500))) :=
  ⟨rfl, rfl, c6_parse_error_excerpt "\x7b\"a\": 2,\x7d" _ rfl rfl⟩

/-- Claim C4: a nonexistent image path fails the run with FileNotFound,
with zero client calls issued — validation strictly precedes any remote
call. -/
theorem c4_validation_precedes_calls (fs : String → Option (List Nat))
    (vc : String × String → Except Unit String) (tc : String → Except Unit String)
    (image_path : String) (out : Option String) (h : fs image_path = none) :
    process_receipt fs vc tc image_path out =
      ⟨.error (.fileNotFound image_path), 0, []⟩ := by
  unfold process_receipt
  rw [h]

/-- Concrete run of C4 on an absent path, with an output path requested:
FileNotFound, zero calls, nothing written. -/
theorem c4_witness :
    ((fun _ => (none : Option (List Nat))) "missing.png" = none) ∧
    process_receipt (fun _ => none) (fun _ => .error ()) (fun _ => .error ())
        "missing.png" (some "out.csv") =
      ⟨.error (.fileNotFound "missing.png"), 0, []⟩ :=
  ⟨rfl, c4_validation_precedes_calls _ _ _ _ _ rfl⟩

/-- The extraction stage issues at most one client call. -/
theorem extract_image_data_calls_le (fs : String → Option (List Nat))
    (vc : String × String → Except Unit String) (p : String) :
    (extract_image_data fs vc p).2 ≤ 1 := by
  unfold extract_image_data
  split
  · exact Nat.zero_le 1
  · split <;> exact Nat.le_refl 1

/-- The structuring stage issues exactly one client call. -/
theorem structure_to_json_calls (tc : String → Except Unit String) (t : String) :
    (structure_to_json tc t).2 = 1 := by
  unfold structure_to_json
  cases tc (buildPrompt t) <;> rfl

/-- Claim C7: a run in which any stage fails produces no Output Row (its
outcome is the terminal error), writes nothing, and issues at most the two
sequential client calls — no retry and no external mutation before the
final optional persist step. -/
theorem c7_failure_terminal (fs : String → Option (List Nat))
    (vc : String × String → Except Unit String) (tc : String → Except Unit String)
    (image_path : String) (out : Option String) (e : OcrError)
    (h : (process_receipt fs vc tc image_path out).outcome = .error e) :
    (process_receipt fs vc tc image_path out).writes = [] ∧
    (process_receipt fs vc tc image_path out).clientCalls ≤ 2 := by
  rcases hfs : fs image_path with _ | bytes
  · constructor <;> simp [process_receipt, hfs]
  · rcases hex : extract_image_data fs vc image_path with ⟨exres, n1⟩
    have hn1 : n1 ≤ 1 := by
      have h1 := extract_image_data_calls_le fs vc image_path
      rw [hex] at h1
      exact h1
    rcases exres with e1 | text
    · constructor <;> simp [process_receipt, hfs, hex]
      omega
    · rcases hst : structure_to_json tc text with ⟨stres, n2⟩
      have hn2 : n2 = 1 := by
        have h2 := structure_to_json_calls tc text
        rw [hst] at h2
        exact h2
      rcases stres with e2 | resp
      · constructor <;> simp [process_receipt, hfs, hex, hst]
        omega
      · rcases hj : extract_json_from_response resp with e3 | j
        · constructor <;> simp [process_receipt, hfs, hex, hst, hj]
          omega
        · rcases out with _ | p <;>
            simp [process_receipt, hfs, hex, hst, hj] at h

/-- Concrete run of C7: the structuring stage fails (one vision call
succeeded, the text call errors): nothing written, two calls issued. -/
theorem c7_witness :
    (process_receipt (fun _ => some [1, 2]) (fun _ => .ok "text") (fun _ => .error ())
        "img.png" (some "out.csv")).outcome = .error .structuringFailed ∧
    (process_receipt (fun _ => some [1, 2]) (fun _ => .ok "text") (fun _ => .error ())
        "img.png" (some "out.csv")).writes = [] ∧
    (process_receipt (fun _ => some [1, 2]) (fun _ => .ok "text") (fun _ => .error ())
        "img.png" (some "out.csv")).clientCalls ≤ 2 :=
  ⟨rfl,
   (c7_failure_terminal (fun _ => some [1, 2]) (fun _ => .ok "text") (fun _ => .error ())
      "img.png" (some "out.csv") .structuringFailed rfl).1,
   (c7_failure_terminal (fun _ => some [1, 2]) (fun _ => .ok "text") (fun _ => .error ())
      "img.png" (some "out.csv") .structuringFailed rfl).2⟩



/-! Helper lemmas for the csv round trip. -/

theorem parseQuotedBody_escape (s rest : List Char) (hrest : delimStart rest) :
    parseQuotedBody (escQuotes s ++ '"' :: rest) = some (s, rest) := by
  induction s with
  | nil =>
    rw [show escQuotes [] ++ '"' :: rest = '"' :: rest from rfl]
    unfold parseQuotedBody
    rw [if_pos rfl]
    rcases rest with _ | ⟨c, rest2⟩
    · rfl
    · rcases hrest with hc | hc <;> subst hc <;> rfl
  | cons a s ih =>
    by_cases ha : a = '"'
    · subst ha
      rw [show escQuotes ('"' :: s) ++ '"' :: rest
          = '"' :: '"' :: (escQuotes s ++ '"' :: rest) from rfl]
      show Option.map (fun p => ('"' :: p.1, p.2))
          (parseQuotedBody (escQuotes s ++ '"' :: rest)) = some ('"' :: s, rest)
      rw [ih]
      rfl
    · rw [show escQuotes (a :: s) ++ '"' :: rest = a :: (escQuotes s ++ '"' :: rest) by
        simp [escQuotes, ha]]
      unfold parseQuotedBody
      rw [if_neg ha, ih]
      rfl

theorem takeWhile_notCellEnd (s rest : List Char)
    (hs : ∀ c ∈ s, isCellEnd c = false) (hrest : delimStart rest) :
    (s ++ rest).takeWhile (fun c => !isCellEnd c) = s ∧
    (s ++ rest).dropWhile (fun c => !isCellEnd c) = rest := by
  induction s with
  | nil =>
    rcases rest with _ | ⟨c, rest2⟩
    · exact ⟨rfl, rfl⟩
    · rcases hrest with hc | hc <;> subst hc <;> exact ⟨rfl, rfl⟩
  | cons a s ih =>
    have ha := hs a (List.mem_cons_self a s)
    have ih' := ih (fun c hc => hs c (List.mem_cons_of_mem a hc))
    constructor
    · rw [List.cons_append, List.takeWhile_cons, if_pos (by simp [ha]), ih'.1]
    · rw [List.cons_append, List.dropWhile_cons, if_pos (by simp [ha]), ih'.2]

theorem parseCsvField_plain (s rest : List Char)
    (hs : ∀ c ∈ s, isCellEnd c = false ∧ c ≠ '"') (hrest : delimStart rest) :
    parseCsvField (s ++ rest) = some (s, rest) := by
  have htd := takeWhile_notCellEnd s rest (fun c hc => (hs c hc).1) hrest
  unfold parseCsvField
  split
  · rename_i r heq
    exfalso
    rcases s with _ | ⟨a, s'⟩
    · rcases rest with _ | ⟨c, rest2⟩
      · simp at heq
      · rw [List.nil_append] at heq
        injection heq with h1 _
        rcases hrest with hc | hc <;> rw [hc] at h1 <;> exact absurd h1 (by decide)
    · rw [List.cons_append] at heq
      injection heq with h1 _
      exact (hs a (List.mem_cons_self a s')).2 h1
  · rw [htd.1, htd.2]

theorem parseCsvField_cell (v : Json) (hv : v = Json.null ∨ ∃ s, v = Json.str s)
    (rest : List Char) (hrest : delimStart rest) :
    parseCsvField ((csvCell v).data ++ rest) = some (cellChars v, rest) := by
  rcases hv with rfl | ⟨s, rfl⟩
  · exact parseCsvField_plain [] rest (by intro c hc; simp at hc) hrest
  · show parseCsvField ((csvQuote s).data ++ rest) = some (s.data, rest)
    unfold csvQuote
    by_cases hq : csvNeedsQuote s = true
    · rw [if_pos hq]
      show parseCsvField (('"' :: (escQuotes s.data ++ ['"'])) ++ rest) = some (s.data, rest)
      rw [show ('"' :: (escQuotes s.data ++ ['"'])) ++ rest
          = '"' :: (escQuotes s.data ++ '"' :: rest) by simp]
      show parseQuotedBody (escQuotes s.data ++ '"' :: rest) = some (s.data, rest)
      exact parseQuotedBody_escape s.data rest hrest
    · rw [if_neg hq]
      refine parseCsvField_plain s.data rest ?_ hrest
      intro c hc
      have hq' : (c == ',' || c == '"' || c == '\n' || c == '\r') = false := by
        by_contra hcon
        rw [Bool.not_eq_false] at hcon
        exact hq (List.any_eq_true.mpr ⟨c, hc, hcon⟩)
      simp only [Bool.or_eq_false_iff] at hq'
      obtain ⟨⟨⟨h1, h2⟩, h3⟩, h4⟩ := hq'
      constructor
      · simp [isCellEnd, h1, h3, h4]
      · exact beq_eq_false_iff_ne.mp h2

theorem cellChars_marker (v : Json) (hv : v = Json.null ∨ ∃ s, v = Json.str s) :
    (if cellChars v = ([] : List Char) then none else some (String.mk (cellChars v)))
      = cellValue v := by
  rcases hv with rfl | ⟨s, rfl⟩
  · rfl
  · obtain ⟨l⟩ := s
    rcases l with _ | ⟨c, l'⟩
    · rfl
    · have hne : String.mk (c :: l') ≠ "" := by
        intro hcon
        have hd := congrArg String.data hcon
        simp at hd
      show some (String.mk (c :: l'))
          = if String.mk (c :: l') = "" then none else some (String.mk (c :: l'))
      rw [if_neg hne]

theorem parseCsvRecord_join : ∀ (ps : List (List Char × List Char)), ps ≠ [] →
    (∀ p ∈ ps, ∀ r : List Char, delimStart r → parseCsvField (p.2 ++ r) = some (p.1, r)) →
    ∀ (fuel : Nat), ps.length ≤ fuel → ∀ (rest : List Char),
    parseCsvRecord fuel (joinCells (ps.map Prod.snd) ++ '\n' :: rest) =
      some (ps.map Prod.fst, rest) := by
  intro ps
  induction ps with
  | nil => intro h; exact absurd rfl h
  | cons p ps ih =>
    intro _ hrt fuel hfuel rest
    rcases fuel with _ | fuel
    · simp at hfuel
    · rcases ps with _ | ⟨q, qs⟩
      · show parseCsvRecord (fuel + 1) (p.2 ++ '\n' :: rest) = some ([p.1], rest)
        unfold parseCsvRecord
        rw [hrt p (List.mem_cons_self p []) ('\n' :: rest) (Or.inr rfl)]
        rfl
      · show parseCsvRecord (fuel + 1)
            ((p.2 ++ ',' :: joinCells ((q :: qs).map Prod.snd)) ++ '\n' :: rest)
          = some (p.1 :: (q :: qs).map Prod.fst, rest)
        rw [show (p.2 ++ ',' :: joinCells ((q :: qs).map Prod.snd)) ++ '\n' :: rest
            = p.2 ++ ',' :: (joinCells ((q :: qs).map Prod.snd) ++ '\n' :: rest) by simp]
        unfold parseCsvRecord
        rw [hrt p (List.mem_cons_self _ _)
          (',' :: (joinCells ((q :: qs).map Prod.snd) ++ '\n' :: rest)) (Or.inl rfl)]
        show Option.map (fun pr => (p.1 :: pr.1, pr.2))
            (parseCsvRecord fuel (joinCells ((q :: qs).map Prod.snd) ++ '\n' :: rest))
          = some (p.1 :: (q :: qs).map Prod.fst, rest)
        rw [ih (by simp) (fun x hx r hr => hrt x (List.mem_cons_of_mem p hx) r hr) fuel
          (by simpa using hfuel) rest]
        rfl

theorem joinCells_length (cs : List (List Char)) :
    cs.length - 1 ≤ (joinCells cs).length := by
  induction cs with
  | nil => simp
  | cons c cs ih =>
    rcases cs with _ | ⟨c2, cs2⟩
    · simp
    · show (c2 :: cs2).length ≤ (c ++ ',' :: joinCells (c2 :: cs2)).length
      simp only [List.length_append, List.length_cons] at ih ⊢
      omega

set_option maxRecDepth 8000 in
/-- Claim C8: persisting an Output Row to the delimited file (one header
line with the thirteen column names, one data line, comma separation) and
re-reading it yields the same thirteen field values, modulo the file
format's null-marker convention: a null and an empty string both appear as
the empty marker (`cellValue`). -/
theorem c8_roundtrip (d : List (String × Json))
    (h : ∀ c ∈ create_dataframe d, c.2 = Json.null ∨ ∃ s, c.2 = Json.str s) :
    readCsv (to_csv (create_dataframe d)) =
      some (outputColumns, (create_dataframe d).map (fun c => cellValue c.2)) := by
  have hrtH : ∀ p ∈ headerPairs, ∀ r : List Char, delimStart r →
      parseCsvField (p.2 ++ r) = some (p.1, r) := by
    intro p hp r hr
    simp only [headerPairs, outputColumns, List.map_cons, List.map_nil, List.mem_cons,
      List.not_mem_nil, or_false] at hp
    rcases hp with rfl|rfl|rfl|rfl|rfl|rfl|rfl|rfl|rfl|rfl|rfl|rfl|rfl <;>
      exact parseCsvField_plain _ r (by decide) hr
  have hrtD : ∀ p ∈ cellPairs (create_dataframe d), ∀ r : List Char, delimStart r →
      parseCsvField (p.2 ++ r) = some (p.1, r) := by
    intro p hp r hr
    simp only [cellPairs, List.mem_map] at hp
    obtain ⟨c, hc, rfl⟩ := hp
    exact parseCsvField_cell c.2 (h c hc) r hr
  have hjlH := joinCells_length (headerPairs.map Prod.snd)
  have hjlD := joinCells_length ((cellPairs (create_dataframe d)).map Prod.snd)
  have hlH : (headerPairs.map Prod.snd).length = 13 := rfl
  have hlD : ((cellPairs (create_dataframe d)).map Prod.snd).length = 13 := rfl
  rw [hlH] at hjlH
  rw [hlD] at hjlD
  have hdata : (to_csv (create_dataframe d)).data
      = joinCells (headerPairs.map Prod.snd) ++
        '\n' :: (joinCells ((cellPairs (create_dataframe d)).map Prod.snd) ++ '\n' :: []) := rfl
  have hH := parseCsvRecord_join headerPairs (by decide) hrtH
    ((joinCells (headerPairs.map Prod.snd) ++
      '\n' :: (joinCells ((cellPairs (create_dataframe d)).map Prod.snd) ++ '\n' :: [])).length + 1)
    (by
      have h13 : headerPairs.length = 13 := rfl
      rw [h13, List.length_append, List.length_cons]
      omega)
    (joinCells ((cellPairs (create_dataframe d)).map Prod.snd) ++ '\n' :: [])
  have hD := parseCsvRecord_join (cellPairs (create_dataframe d))
    (by simp [cellPairs, create_dataframe]) hrtD
    ((joinCells ((cellPairs (create_dataframe d)).map Prod.snd) ++ '\n' :: []).length + 1)
    (by
      have h13 : (cellPairs (create_dataframe d)).length = 13 := rfl
      rw [h13, List.length_append, List.length_cons]
      omega)
    []
  have hcols : ((headerPairs.map Prod.fst).map String.mk) = outputColumns := rfl
  have hfinal : (((cellPairs (create_dataframe d)).map Prod.fst).map
        (fun f => if f = ([] : List Char) then none else some (String.mk f)))
      = (create_dataframe d).map (fun c => cellValue c.2) := by
    simp only [cellPairs, List.map_map]
    refine List.map_congr_left ?_
    intro c hc
    exact cellChars_marker c.2 (h c hc)
  unfold readCsv
  rw [hdata]
  simp only [hH, hD, hcols, hfinal, if_true]

set_option maxRecDepth 8000 in
/-- Concrete run of C8: a value needing quoting (comma, quote, newline), a
present empty string, and ten absent fields; re-reading returns the same
values modulo the empty null marker. -/
theorem c8_witness :
    readCsv (to_csv (create_dataframe
        [("Matricula", Json.str "12,3\"45\nx"), ("Proprietario", Json.str "Jane Doe"),
         ("Observacoes", Json.str "")])) =
      some (outputColumns,
        (create_dataframe
          [("Matricula", Json.str "12,3\"45\nx"), ("Proprietario", Json.str "Jane Doe"),
           ("Observacoes", Json.str "")]).map (fun c => cellValue c.2)) :=
  c8_roundtrip _ (by
    intro c hc
    simp only [create_dataframe, List.mem_cons, List.not_mem_nil, or_false] at hc
    rcases hc with rfl|rfl|rfl|rfl|rfl|rfl|rfl|rfl|rfl|rfl|rfl|rfl|rfl <;>
      first
      | exact Or.inl rfl
      | exact Or.inr ⟨_, rfl⟩)
